import Mathlib

/-!
Shallow embedding of the datastar-typescript SDK core
(`src/abstractServerSentEventGenerator.ts`, `src/consts.ts`,
`src/node/serverSentEventGenerator.ts`).

Conventions of the embedding:
* A thrown `Error` is modelled as `Except.error` carrying an `SSEError`
  value; each constructor corresponds to one `throw` site of the source
  and `SSEError.message` reproduces the exact message string.
* TypeScript `string | undefined` option fields are modelled as
  `Option String`; a JavaScript object key that is absent is `none`.
  (A key present with an `undefined` value is also modelled as `none`.)
* JavaScript truthiness of a `string | undefined` value (`undefined` and
  `""` are falsy) is the `truthy` function below.
* JavaScript object key order is insertion order; option objects are
  modelled as structures and their keys are enumerated in the fixed
  order selector, mode, useViewTransition, namespace (matching the
  option lists of the source's types and docs).
-/

namespace Datastar

/-- From `consts.ts`: `DefaultSseRetryDurationMs = 1000`. -/
def DefaultSseRetryDurationMs : Nat := 1000

/-- From `consts.ts`: the eight element patch modes, in source order. -/
def ElementPatchModes : List String :=
  ["outer", "inner", "replace", "prepend", "append", "before", "after", "remove"]

/-- From `consts.ts`: `DefaultElementPatchMode = "outer"`. -/
def DefaultElementPatchMode : String := "outer"

/-- JavaScript truthiness for a `string | undefined` value:
`undefined` and the empty string are falsy. -/
def truthy : Option String → Bool
  | none => false
  | some s => s ≠ ""

/-- The distinguishable `throw new Error(...)` sites of
`abstractServerSentEventGenerator.ts`. -/
inductive SSEError where
  /-- `validateElementPatchMode`: the supplied mode is not an `ElementPatchMode`. -/
  | invalidMode (mode : String)
  /-- `validateRequired`: a required string parameter is empty or undefined. -/
  | requiredParam (paramName : String)
  /-- `patchElements`: remove mode without selector and empty elements. -/
  | removeNoElements
  /-- `removeElements`: neither selector nor elements usable. -/
  | removeElementsMissing
deriving DecidableEq

/-- The exact message text of each `throw new Error(...)` in the source. -/
def SSEError.message : SSEError → String
  | .invalidMode m =>
      "Invalid ElementPatchMode: \"" ++ m ++ "\". Valid modes are: " ++
        String.intercalate ", " ElementPatchModes
  | .requiredParam p => p ++ " is required and cannot be empty"
  | .removeNoElements =>
      "For remove mode without selector, elements parameter with IDs is required"
  | .removeElementsMissing =>
      "Either selector or elements (with IDs) must be provided to remove elements."

/-- The character set stripped by JavaScript `String.prototype.trim`:
ECMAScript WhiteSpace — TAB U+0009, VT U+000B, FF U+000C, SP U+0020,
NBSP U+00A0, ZWNBSP U+FEFF and the Unicode space separators (Zs:
U+1680, U+2000..U+200A, U+202F, U+205F, U+3000) — together with the
LineTerminators LF U+000A, CR U+000D, LS U+2028 and PS U+2029. -/
def jsWhitespace (c : Char) : Bool :=
  c.toNat = 0x9 || c.toNat = 0xA || c.toNat = 0xB || c.toNat = 0xC ||
  c.toNat = 0xD || c.toNat = 0x20 || c.toNat = 0xA0 || c.toNat = 0x1680 ||
  (0x2000 ≤ c.toNat && c.toNat ≤ 0x200A) ||
  c.toNat = 0x2028 || c.toNat = 0x2029 || c.toNat = 0x202F ||
  c.toNat = 0x205F || c.toNat = 0x3000 || c.toNat = 0xFEFF

/-- The condition of `validateRequired` (`!value || value.trim() === ''`):
`trim()` removes leading and trailing JavaScript whitespace, so the whole
test holds exactly when every character of the string is such whitespace
(the empty and `undefined` cases are subsumed). Stated character-wise with
the full ECMAScript `trim()` character set. -/
def requiredMissing (value : String) : Bool := value.data.all jsWhitespace

/-- Event metadata options (`DatastarEventOptions`): `eventId` and
`retryDuration`. -/
structure DatastarEventOptions where
  eventId : Option String := none
  retryDuration : Option Nat := none
deriving DecidableEq

/-- `send` of `abstractServerSentEventGenerator.ts` (lines 65-86): frames one
SSE event as the list of its lines. The `eventId ? ... : []` test is
JavaScript truthiness (an empty id string is falsy); likewise
`!retryDuration || retryDuration === 1000` (a zero duration is falsy). -/
def send (event : String) (dataLines : List String)
    (options : DatastarEventOptions) : List String :=
  let typeLine := ["event: " ++ event ++ "\n"]
  let idLine := match options.eventId with
    | some e => if e = "" then [] else ["id: " ++ e ++ "\n"]
    | none => []
  let retryLine := match options.retryDuration with
    | some r => if r = 0 ∨ r = 1000 then [] else ["retry: " ++ toString r ++ "\n"]
    | none => []
  typeLine ++ idLine ++ retryLine ++
    dataLines.map (fun data => "data: " ++ data ++ "\n") ++ ["\n"]

/-- JavaScript `data.split("\n")`, character by character: the (possibly
empty) segments between `'\n'` characters, the empty string giving one
empty segment. (`String.splitOn "\n"` agrees, but its position arithmetic
is not kernel-reducible, so the embedding splits structurally.) -/
def splitLinesAux : List Char → List Char → List String
  | [], acc => [String.mk acc.reverse]
  | c :: cs, acc =>
    if c = '\n' then String.mk acc.reverse :: splitLinesAux cs []
    else splitLinesAux cs (c :: acc)

/-- The line segments of a string, per JavaScript `split("\n")`. -/
def splitLines (s : String) : List String := splitLinesAux s.data []

/-- `eachNewlineIsADataLine` (lines 98-102): split the value on `"\n"` and
prefix every physical line with the data-line field name. -/
def eachNewlineIsADataLine (pfx : String) (data : String) : List String :=
  (splitLines data).map (fun line => pfx ++ " " ++ line)

/-- The runtime value of a data-line option as seen by
`eachOptionIsADataLine` (a string or a boolean; `toString` matches the
JavaScript `.toString()` on these). -/
inductive OptionValue where
  | str (s : String)
  | bool (b : Bool)
deriving DecidableEq

def OptionValue.toString : OptionValue → String
  | .str s => s
  | .bool b => if b then "true" else "false"

/-- Modelled from the spec: `DefaultMapping` lives in `types.ts`, which is
not among the provided sources. Per the spec it is "a fixed mapping from
option key to its default value; an option line is emitted only when the
caller's value differs from the default", and the defaults named by
`consts.ts` are `DefaultElementPatchMode = "outer"` for `mode`,
`DefaultElementsUseViewTransitions = false` for `useViewTransition` and
`DefaultPatchSignalsOnlyIfMissing = false` for `onlyIfMissing`. -/
def DefaultMapping : List (String × OptionValue) :=
  [("mode", .str DefaultElementPatchMode),
   ("useViewTransition", .bool false),
   ("onlyIfMissing", .bool false)]

/-- `hasDefaultValue` (lines 117-123): a value is default when its key is in
`DefaultMapping` and the value equals the mapped default. -/
def hasDefaultValue (key : String) (val : OptionValue) : Bool :=
  match DefaultMapping.find? (fun p => p.1 == key) with
  | some p => val == p.2
  | none => false

/-- `eachOptionIsADataLine` (lines 104-115): keep the non-default options,
then one data line per physical line of each value's string form. -/
def eachOptionIsADataLine (options : List (String × OptionValue)) : List String :=
  (options.filter (fun p => !hasDefaultValue p.1 p.2)).flatMap
    (fun p => eachNewlineIsADataLine p.1 p.2.toString)

/-- `PatchElementsOptions`: recognized option keys of `patchElements`.
`mode` is kept as a plain string because `patchElements` reads it through a
`Record<string, unknown>` cast and validates it at runtime. `nspace` is the
`namespace` key of the source (renamed: `namespace` is a Lean keyword). -/
structure PatchElementsOptions where
  selector : Option String := none
  mode : Option String := none
  useViewTransition : Option Bool := none
  nspace : Option String := none
  eventId : Option String := none
  retryDuration : Option Nat := none
deriving DecidableEq

/-- The `renderOptions` rest object of `patchElements` (everything except
`eventId`/`retryDuration`), as the key/value list consumed by
`eachOptionIsADataLine`; keys in the fixed order selector, mode,
useViewTransition, namespace. -/
def renderOptionsList (o : PatchElementsOptions) : List (String × OptionValue) :=
  (match o.selector with | some s => [("selector", OptionValue.str s)] | none => []) ++
  (match o.mode with | some m => [("mode", OptionValue.str m)] | none => []) ++
  (match o.useViewTransition with | some b => [("useViewTransition", OptionValue.bool b)] | none => []) ++
  (match o.nspace with | some n => [("namespace", OptionValue.str n)] | none => [])

/-- `patchElements` (lines 149-191). Following the source order:
validate the mode when truthy, compute `isRemoveWithSelector`, require the
elements payload outside that branch, the (unreachable) remove-without-
selector re-check, then the data lines, skipping the elements lines in the
remove-with-selector branch when the payload trims to empty. -/
def patchElements (elements : String)
    (options : PatchElementsOptions) : Except SSEError (List String) :=
  let patchMode := options.mode
  let selector := options.selector
  if truthy patchMode ∧ ¬ ElementPatchModes.contains (patchMode.getD "") then
    .error (.invalidMode (patchMode.getD ""))
  else
    let isRemoveWithSelector := patchMode = some "remove" ∧ truthy selector = true
    if ¬ isRemoveWithSelector ∧ requiredMissing elements then
      .error (.requiredParam "elements")
    else if truthy selector = false ∧ patchMode = some "remove" ∧ requiredMissing elements then
      .error .removeNoElements
    else
      let optionLines := eachOptionIsADataLine (renderOptionsList options)
      let dataLines :=
        if ¬ isRemoveWithSelector ∨ requiredMissing elements = false then
          optionLines ++ eachNewlineIsADataLine "elements" elements
        else optionLines
      .ok (send "datastar-patch-elements" dataLines
        { eventId := options.eventId, retryDuration := options.retryDuration })

/-- `PatchSignalsOptions`: recognized option keys of `patchSignals`. -/
structure PatchSignalsOptions where
  onlyIfMissing : Option Bool := none
  eventId : Option String := none
  retryDuration : Option Nat := none
deriving DecidableEq

/-- The `eventOptions` rest object of `patchSignals`. -/
def signalsOptionsList (o : PatchSignalsOptions) : List (String × OptionValue) :=
  match o.onlyIfMissing with
  | some b => [("onlyIfMissing", OptionValue.bool b)]
  | none => []

/-- `patchSignals` (lines 211-229): the signals payload is required, then
the non-default option lines followed by the signals payload lines. -/
def patchSignals (signals : String)
    (options : PatchSignalsOptions) : Except SSEError (List String) :=
  if requiredMissing signals then
    .error (.requiredParam "signals")
  else
    .ok (send "datastar-patch-signals"
      (eachOptionIsADataLine (signalsOptionsList options) ++
        eachNewlineIsADataLine "signals" signals)
      { eventId := options.eventId, retryDuration := options.retryDuration })

/-- Options accepted by `removeElements`. -/
structure RemoveElementsOptions where
  eventId : Option String := none
  retryDuration : Option Nat := none
deriving DecidableEq

/-- `removeElements` (lines 321-339): requires a truthy selector or a
non-whitespace elements payload, then delegates to `patchElements` with
mode forced to `"remove"`. -/
def removeElements (selector : Option String) (elements : Option String)
    (options : RemoveElementsOptions) : Except SSEError (List String) :=
  if truthy selector = false ∧ requiredMissing (elements.getD "") then
    .error .removeElementsMissing
  else
    patchElements (elements.getD "")
      { selector := selector, mode := some "remove",
        eventId := options.eventId, retryDuration := options.retryDuration }

/-- A parsed JSON value (result of `JSON.parse`). Numbers are irrelevant to
the claims and kept as integers. -/
inductive Json where
  | null
  | bool (b : Bool)
  | num (n : Int)
  | str (s : String)
  | arr (elems : List Json)
  | obj (fields : List (String × Json))

/-- `isRecord` (lines 8-10): `typeof obj === "object" && obj !== null`.
On values produced by `JSON.parse`, `typeof` is `"object"` exactly for
objects, arrays and `null`, so this accepts objects AND arrays and rejects
`null` and scalars. -/
def isRecord : Json → Bool
  | .obj _ => true
  | .arr _ => true
  | _ => false

/-- The inbound request as `readSignals` consumes it: the HTTP method, the
`datastar` query parameter when present (GET path), and the fully buffered
body text (the chunk accumulator starts at `""`, so the body is always a
string). -/
structure NodeRequest where
  method : String
  datastarParam : Option String := none
  body : String := ""
deriving DecidableEq

/-- The tagged result of `readSignals`:
`{success: true, signals}` or `{success: false, error}`. -/
inductive SignalsResult where
  | success (signals : Json)
  | failure (error : String)

/-- `readSignals` (lines 113-168), parameterized by the host `JSON.parse`
primitive (`parse s` is `.ok` of the parsed value, or `.error` of the
thrown message). For GET requests the `datastar` query parameter is
parsed inside a try/catch that converts every thrown message into the
failure variant; otherwise the buffered body is parsed the same way. -/
def readSignals (parse : String → Except String Json)
    (request : NodeRequest) : SignalsResult :=
  if request.method = "GET" then
    match request.datastarParam with
    | none => .failure "No datastar object in request"
    | some p =>
      match parse p with
      | .error msg => .failure msg
      | .ok signals =>
        if isRecord signals then .success signals
        else .failure "Datastar param is not a record"
  else
    match parse request.body with
    | .error msg => .failure msg
    | .ok parsedBody =>
      if isRecord parsedBody then .success parsedBody
      else .failure "Parsed JSON body is not of type record"

/-! ## Helper lemmas -/

/-- Two strings that differ at a common character position stay different
whatever is appended to each. -/
theorem string_append_ne_of_getElem (a b s t : String) (i : Nat)
    (ha : i < a.data.length) (hb : i < b.data.length)
    (hne : a.data[i]? ≠ b.data[i]?) : a ++ s ≠ b ++ t := by
  intro h
  apply hne
  have hd : (a ++ s).data = (b ++ t).data := congrArg String.data h
  rw [String.data_append, String.data_append] at hd
  calc a.data[i]? = (a.data ++ s.data)[i]? := (List.getElem?_append_left ha).symm
    _ = (b.data ++ t.data)[i]? := by rw [hd]
    _ = b.data[i]? := List.getElem?_append_left hb

/-- A string that differs from `b` at a common character position is not
`b` followed by anything. -/
theorem string_ne_append_of_getElem (a b t : String) (i : Nat)
    (ha : i < a.data.length) (hb : i < b.data.length)
    (hne : a.data[i]? ≠ b.data[i]?) : a ≠ b ++ t := by
  intro h
  exact string_append_ne_of_getElem a b "" t i ha hb hne (by rw [String.append_empty]; exact h)

/-! ## Claim theorems -/

/-- C2 (code evaluated at the failing input): a GET request whose
`datastar` query parameter parses to the JSON array `[1,2,3]` — not a JSON
object — is *accepted* by `readSignals`, which returns the success variant
carrying the array, because `isRecord` (`typeof obj === "object" &&
obj !== null`) is true for arrays. -/
theorem readSignals_accepts_array :
    readSignals (fun _ => .ok (.arr [.num 1, .num 2, .num 3]))
      { method := "GET", datastarParam := some "[1,2,3]" } =
      .success (.arr [.num 1, .num 2, .num 3]) := rfl

/-- C4 counterexample: with `eventId` given as `""` and `retryDuration`
given as `0` (both given, and `0 ≠ 1000`), `send` emits neither an `id:`
line nor a `retry:` line, so the sequence the claim prescribes is not the
one returned. -/
theorem send_counterexample :
    send "datastar-patch-elements" ["x"]
        { eventId := some "", retryDuration := some 0 } =
      ["event: datastar-patch-elements\n", "data: x\n", "\n"] ∧
    (["event: datastar-patch-elements\n", "data: x\n", "\n"] : List String) ≠
      ["event: datastar-patch-elements\n", "id: \n", "retry: 0\n", "data: x\n", "\n"] :=
  ⟨rfl, by decide⟩

/-- C4 amended: `send` returns exactly the ordered sequence: the `event:`
line; an `id:` line iff `eventId` is given and non-empty; a `retry:` line
iff `retryDuration` is given, non-zero and different from `1000`; one
`data:` line per entry of `dataLines` in order; a final blank line. -/
theorem send_line_sequence (event : String) (dataLines : List String)
    (eventId : Option String) (retryDuration : Option Nat) :
    send event dataLines { eventId := eventId, retryDuration := retryDuration } =
      ["event: " ++ event ++ "\n"] ++
      (match eventId with
        | some e => if e ≠ "" then ["id: " ++ e ++ "\n"] else []
        | none => []) ++
      (match retryDuration with
        | some r => if r ≠ 0 ∧ r ≠ 1000 then ["retry: " ++ toString r ++ "\n"] else []
        | none => []) ++
      dataLines.map (fun data => "data: " ++ data ++ "\n") ++ ["\n"] := by
  cases eventId with
  | none =>
    cases retryDuration with
    | none => rfl
    | some r =>
      by_cases h0 : r = 0
      · simp [send, h0]
      · by_cases h1 : r = 1000 <;> simp [send, h0, h1]
  | some e =>
    cases retryDuration with
    | none =>
      by_cases he : e = "" <;> simp [send, he]
    | some r =>
      by_cases he : e = "" <;> by_cases h0 : r = 0 <;> by_cases h1 : r = 1000 <;>
        simp [send, he, h0, h1]

/-- C5: `readSignals` always returns one of the two variants of the tagged
union, and each enumerated failure (missing `datastar` parameter, a parse
error on the GET parameter, a parse error on the body) is converted into
the failure variant rather than escaping. -/
theorem readSignals_never_throws (parse : String → Except String Json)
    (req : NodeRequest) :
    ((∃ signals, readSignals parse req = .success signals) ∨
      (∃ msg, readSignals parse req = .failure msg)) ∧
    (req.method = "GET" → req.datastarParam = none →
      readSignals parse req = .failure "No datastar object in request") ∧
    (∀ p msg, req.method = "GET" → req.datastarParam = some p →
      parse p = .error msg → readSignals parse req = .failure msg) ∧
    (∀ msg, req.method ≠ "GET" → parse req.body = .error msg →
      readSignals parse req = .failure msg) := by
  refine ⟨?_, ?_, ?_, ?_⟩
  · cases h : readSignals parse req with
    | success s => exact Or.inl ⟨s, rfl⟩
    | failure e => exact Or.inr ⟨e, rfl⟩
  · intro hm hp
    simp [readSignals, hm, hp]
  · intro p msg hm hp hparse
    simp [readSignals, hm, hp, hparse]
  · intro msg hm hparse
    simp [readSignals, hm, hparse]

/-- C5 witness: a POST body that fails to parse yields the failure variant
with the parser's message. -/
theorem readSignals_never_throws_witness :
    readSignals (fun _ => .error "Unexpected token")
      { method := "POST", body := "not json" } = .failure "Unexpected token" :=
  (readSignals_never_throws (fun _ => .error "Unexpected token")
    { method := "POST", body := "not json" }).2.2.2 "Unexpected token" (by decide) rfl

/-- C6: a payload with embedded newlines becomes one `data: elements` line
per physical line, in the payload's original order (the emitted event is
exactly the event line, the per-line elements data lines, and the blank
terminator; the payload must not be whitespace-only or the call fails
instead per `validateRequired`). -/
theorem patchElements_multiline (p : String) (h : requiredMissing p = false) :
    patchElements p {} =
      .ok (["event: datastar-patch-elements\n"] ++
        (splitLines p).map (fun line => "data: elements " ++ line ++ "\n") ++
        ["\n"]) := by
  simp only [patchElements, truthy, eachOptionIsADataLine, renderOptionsList, h,
    eachNewlineIsADataLine, send, List.map_map]
  simp [Function.comp, String.append_assoc]
  intro a _
  rw [show ("data: elements " : String) = "data: " ++ "elements " from rfl,
    String.append_assoc]

/-- C6 witness: a three-line elements payload produces three consecutive
`data: elements` lines in order. -/
theorem patchElements_multiline_witness :
    patchElements "a\nb\nc" {} =
      .ok ["event: datastar-patch-elements\n", "data: elements a\n",
        "data: elements b\n", "data: elements c\n", "\n"] :=
  (patchElements_multiline "a\nb\nc" (by decide)).trans (by rfl)

/-- C3 counterexample: the empty string is a supplied mode string that is
not one of the eight patch modes, yet `patchElements` does not fail with
an invalid-mode error — `if (patchMode)` is false for `""`, the validation
is skipped, and the call succeeds (even emitting a `mode` data line with an
empty value). -/
theorem patchElements_empty_mode_counterexample :
    patchElements "<div></div>" { mode := some "" } =
      .ok ["event: datastar-patch-elements\n", "data: mode \n",
        "data: elements <div></div>\n", "\n"] := by rfl

/-- C3 amended: for every supplied *non-empty* mode string that is not one
of the eight enumerated patch modes, `patchElements` fails with an
invalid-mode error whose message names the offending value and lists all
eight valid modes. -/
theorem patchElements_invalid_mode (m elements : String)
    (o : PatchElementsOptions) (hne : m ≠ "") (hmem : m ∉ ElementPatchModes) :
    patchElements elements { o with mode := some m } = .error (.invalidMode m) ∧
    (SSEError.invalidMode m).message =
      "Invalid ElementPatchMode: \"" ++ m ++
        "\". Valid modes are: outer, inner, replace, prepend, append, before, after, remove" := by
  constructor
  · have ht : truthy (some m) = true := by simp [truthy, hne]
    have hc : ElementPatchModes.contains m = false := by
      simp [List.contains, List.elem_eq_mem, hmem]
    simp [patchElements, ht, hc]
    exact fun hm => absurd hm hmem
  · show "Invalid ElementPatchMode: \"" ++ m ++ "\". Valid modes are: " ++
      String.intercalate ", " ElementPatchModes = _
    rw [String.append_assoc, String.append_assoc, String.append_assoc]
    rfl

/-- C3 witness: the concrete invalid mode `"bogus"` fails with the
invalid-mode error and the full eight-mode message. -/
theorem patchElements_invalid_mode_witness :
    patchElements "" { selector := some "#x", mode := some "bogus" } =
      .error (.invalidMode "bogus") ∧
    (SSEError.invalidMode "bogus").message =
      "Invalid ElementPatchMode: \"bogus\". Valid modes are: outer, inner, replace, prepend, append, before, after, remove" := by
  have h := patchElements_invalid_mode "bogus" "" { selector := some "#x" }
    (by decide) (by decide)
  exact ⟨h.1, h.2.trans (by rfl)⟩

/-- C9: the required-parameter check treats whitespace-only strings exactly
like the empty string — `patchSignals` fails with the required-parameter
error precisely when the payload is all whitespace; a whitespace-only
elements payload makes `patchElements` behave exactly as on `""`; and
outside the remove-with-selector branch `patchElements` succeeds only on a
payload with at least one non-whitespace character. -/
theorem whitespace_like_empty (s : String) (po : PatchElementsOptions)
    (so : PatchSignalsOptions) :
    (patchSignals s so = .error (.requiredParam "signals") ↔
      requiredMissing s = true) ∧
    (requiredMissing s = true → patchElements s po = patchElements "" po) ∧
    (¬ (po.mode = some "remove" ∧ truthy po.selector = true) →
      (patchElements s po).isOk = true → requiredMissing s = false) := by
  refine ⟨?_, ?_, ?_⟩
  · by_cases h : requiredMissing s = true
    · simp [patchSignals, h]
    · simp [patchSignals, h]
  · intro h
    simp only [patchElements, h, show requiredMissing "" = true from rfl]
    split_ifs <;> first | rfl | tauto
  · intro hnrws hok
    by_contra hmiss
    have h : requiredMissing s = true := by simpa using hmiss
    simp only [patchElements, h] at hok
    split_ifs at hok <;> simp_all [Except.isOk, Except.toBool]

/-- C9 witness: the one-space signals payload fails exactly like the empty
one. -/
theorem whitespace_like_empty_witness :
    patchSignals " " {} = .error (.requiredParam "signals") :=
  (whitespace_like_empty " " {} {}).1.mpr (by decide)

/-- C10: an empty-string selector is falsy, so the remove-via-selector
branch is not taken: with an all-whitespace elements payload,
`patchElements` under mode `"remove"` with selector `""` fails with the
required-parameter error exactly as with no selector, and `removeElements`
with selector `""` fails with its selector-or-elements error exactly as
with no selector. -/
theorem empty_selector_like_absent (elements : String)
    (ro : RemoveElementsOptions) (h : requiredMissing elements = true) :
    patchElements elements { mode := some "remove", selector := some "" } =
      .error (.requiredParam "elements") ∧
    patchElements elements { mode := some "remove" } =
      .error (.requiredParam "elements") ∧
    removeElements (some "") (some elements) ro = .error .removeElementsMissing ∧
    removeElements none (some elements) ro = .error .removeElementsMissing := by
  refine ⟨?_, ?_, ?_, ?_⟩ <;>
    simp [patchElements, removeElements, h,
      show truthy (some "") = false from rfl,
      show truthy (none : Option String) = false from rfl,
      show ElementPatchModes.contains "remove" = true from rfl,
      show truthy (some "remove") = true from rfl] <;>
    try decide

/-- C10 witness: the empty elements payload with an empty-string selector
fails exactly as with no selector, in both entry points. -/
theorem empty_selector_like_absent_witness :
    patchElements "" { mode := some "remove", selector := some "" } =
      .error (.requiredParam "elements") ∧
    patchElements "" { mode := some "remove" } =
      .error (.requiredParam "elements") ∧
    removeElements (some "") (some "") {} = .error .removeElementsMissing ∧
    removeElements none (some "") {} = .error .removeElementsMissing :=
  empty_selector_like_absent "" {} (by decide)

/-- Every line produced by `eachOptionIsADataLine` is some listed key,
a space, and a line of that option's value. -/
theorem mem_eachOptionIsADataLine (l : List (String × OptionValue)) (s : String)
    (hs : s ∈ eachOptionIsADataLine l) :
    ∃ p, p ∈ l ∧ ∃ line, s = (p.1 ++ " ") ++ line := by
  simp only [eachOptionIsADataLine, List.mem_flatMap, List.mem_filter,
    eachNewlineIsADataLine, List.mem_map] at hs
  obtain ⟨p, ⟨hpl, _⟩, line, _, hline⟩ := hs
  exact ⟨p, hpl, line, hline.symm⟩

/-- The data-line keys of `renderOptions` are among the four element patch
option keys. -/
theorem renderOptionsList_keys (o : PatchElementsOptions) (p : String × OptionValue)
    (hp : p ∈ renderOptionsList o) :
    p.1 = "selector" ∨ p.1 = "mode" ∨ p.1 = "useViewTransition" ∨
      p.1 = "namespace" := by
  obtain ⟨sel, mode, uvt, nsp, eid, rd⟩ := o
  simp only [renderOptionsList, List.mem_append] at hp
  rcases hp with ((h | h) | h) | h
  · cases sel <;> simp_all
  · cases mode <;> simp_all
  · cases uvt <;> simp_all
  · cases nsp <;> simp_all

/-- Reassociation of a framed option data line: literal head, then tail. -/
theorem data_line_shape (k line : String) :
    ("data: " ++ ((k ++ " ") ++ line)) ++ "\n" =
      ("data: " ++ (k ++ " ")) ++ (line ++ "\n") := by
  rw [String.append_assoc, String.append_assoc, ← String.append_assoc "data: "]

/-- No line of an event framed from option data lines alone begins with
`data: elements`: the event, id, retry and blank lines have different
heads, and each option data line carries one of the four option keys. -/
theorem no_elements_data_line (o : PatchElementsOptions) (rest : String) :
    ("data: elements" ++ rest) ∉
      send "datastar-patch-elements" (eachOptionIsADataLine (renderOptionsList o))
        { eventId := o.eventId, retryDuration := o.retryDuration } := by
  intro hmem
  simp only [send, List.mem_append, List.mem_singleton, List.mem_map] at hmem
  rcases hmem with (((h | h) | h) | ⟨d, hd, h⟩) | h
  · rw [String.append_assoc] at h
    exact string_append_ne_of_getElem "data: elements" "event: " rest
      ("datastar-patch-elements" ++ "\n") 0 (by decide) (by decide) (by decide) h
  · split at h
    · split at h
      · exact absurd h (List.not_mem_nil _)
      · rw [List.mem_singleton, String.append_assoc] at h
        exact string_append_ne_of_getElem "data: elements" "id: " rest (_ ++ "\n") 0
          (by decide) (by decide) (by decide) h
    · exact absurd h (List.not_mem_nil _)
  · split at h
    · split at h
      · exact absurd h (List.not_mem_nil _)
      · rw [List.mem_singleton, String.append_assoc] at h
        exact string_append_ne_of_getElem "data: elements" "retry: " rest
          (_ ++ "\n") 0 (by decide) (by decide) (by decide) h
    · exact absurd h (List.not_mem_nil _)
  · obtain ⟨p, hpl, line, hline⟩ := mem_eachOptionIsADataLine _ _ hd
    have h2 : "data: elements" ++ rest = ("data: " ++ ((p.1 ++ " ") ++ line)) ++ "\n" := by
      rw [← h, hline]
    rcases renderOptionsList_keys o p hpl with hk | hk | hk | hk <;>
      rw [hk, data_line_shape] at h2
    · exact string_append_ne_of_getElem "data: elements" ("data: " ++ ("selector" ++ " "))
        rest (line ++ "\n") 6 (by decide) (by decide) (by decide) h2
    · exact string_append_ne_of_getElem "data: elements" ("data: " ++ ("mode" ++ " "))
        rest (line ++ "\n") 6 (by decide) (by decide) (by decide) h2
    · exact string_append_ne_of_getElem "data: elements"
        ("data: " ++ ("useViewTransition" ++ " ")) rest (line ++ "\n") 6
        (by decide) (by decide) (by decide) h2
    · exact string_append_ne_of_getElem "data: elements" ("data: " ++ ("namespace" ++ " "))
        rest (line ++ "\n") 6 (by decide) (by decide) (by decide) h2
  · have h5 : ("\n" : String) = "data: elements" ++ rest := by
      first
        | exact h
        | exact h.symm
    exact string_ne_append_of_getElem "\n" "data: elements" rest 0
      (by decide) (by decide) (by decide) h5

/-- C1 counterexample: with empty elements, mode `"bogus"` and a selector,
the call fails with the invalid-mode error — not the required-parameter
error the claim prescribes for every failing case with empty elements
(mode validation runs first). -/
theorem patchElements_c1_counterexample :
    patchElements "" { selector := some "#x", mode := some "bogus" } =
      .error (.invalidMode "bogus") ∧
    SSEError.invalidMode "bogus" ≠ .requiredParam "elements" :=
  ⟨by rfl, by decide⟩

/-- C1 amended: for empty elements and a mode that is absent, empty, or one
of the eight valid modes, the call succeeds iff mode is `"remove"` and a
non-empty selector is supplied — the output then omits the elements payload
data line(s) entirely (no line starts with `data: elements`) — and in every
other such case it fails with the required-parameter error. (A non-empty
invalid mode fails with the invalid-mode error instead, per the
counterexample.) -/
theorem patchElements_empty_elements (o : PatchElementsOptions)
    (hmode : o.mode = none ∨ o.mode = some "" ∨ o.mode.getD "" ∈ ElementPatchModes) :
    (o.mode = some "remove" ∧ truthy o.selector = true →
      patchElements "" o =
        .ok (send "datastar-patch-elements" (eachOptionIsADataLine (renderOptionsList o))
          { eventId := o.eventId, retryDuration := o.retryDuration }) ∧
      ∀ rest, ("data: elements" ++ rest) ∉
        send "datastar-patch-elements" (eachOptionIsADataLine (renderOptionsList o))
          { eventId := o.eventId, retryDuration := o.retryDuration }) ∧
    (¬ (o.mode = some "remove" ∧ truthy o.selector = true) →
      patchElements "" o = .error (.requiredParam "elements")) := by
  constructor
  · rintro ⟨hm, hs⟩
    refine ⟨?_, fun rest => no_elements_data_line o rest⟩
    simp [patchElements, hm, hs, show requiredMissing "" = true from rfl,
      show truthy (some "remove") = true from rfl,
      show ElementPatchModes.contains "remove" = true from rfl]
    decide
  · intro hn
    rcases ho : o.mode with _ | m
    · simp [patchElements, ho, show requiredMissing "" = true from rfl,
        show truthy (none : Option String) = false from rfl]
    · rcases hmode with hm | hm | hm <;> rw [ho] at hm
      · exact absurd hm (by simp)
      · have hne : ("" : String) ≠ "remove" := by decide
        rw [Option.some.injEq] at hm
        subst hm
        simp [patchElements, ho, show requiredMissing "" = true from rfl,
          show truthy (some "") = false from rfl, hne]
      · rw [Option.getD_some] at hm
        have hc : ElementPatchModes.contains m = true := by
          simp [List.contains, List.elem_eq_mem, hm]
        rw [ho] at hn
        simp only [Option.some.injEq] at hn
        simp [patchElements, ho, hm, hn, show requiredMissing "" = true from rfl]

/-- C1 witness: removing by selector with an empty payload succeeds and
omits the elements data line. -/
theorem patchElements_empty_elements_witness :
    patchElements "" { mode := some "remove", selector := some "#x" } =
      .ok ["event: datastar-patch-elements\n", "data: selector #x\n",
        "data: mode remove\n", "\n"] ∧
    ("data: elements" ++ " \n") ∉
      (["event: datastar-patch-elements\n", "data: selector #x\n",
        "data: mode remove\n", "\n"] : List String) := by
  have h := (patchElements_empty_elements
    { mode := some "remove", selector := some "#x" } (by right; right; decide)).1
    ⟨rfl, rfl⟩
  refine ⟨h.1.trans (by rfl), ?_⟩
  have h2 := h.2 " \n"
  rw [show send "datastar-patch-elements"
      (eachOptionIsADataLine (renderOptionsList
        { mode := some "remove", selector := some "#x" }))
      { eventId := none, retryDuration := none } =
    ["event: datastar-patch-elements\n", "data: selector #x\n",
      "data: mode remove\n", "\n"] from rfl] at h2
  exact h2

/-- Each of the eight patch modes is a single line (no embedded newline). -/
theorem splitLines_of_mode (m : String) (hm : m ∈ ElementPatchModes) :
    splitLines m = [m] := by
  simp only [ElementPatchModes] at hm
  fin_cases hm <;> rfl

/-- C7: for a valid patch mode and a non-whitespace payload,
`patchElements` succeeds and its output contains the `data: mode <m>` line
iff the mode differs from the default `"outer"`; for `"outer"` no mode data
line is emitted. -/
theorem patchElements_mode_data_line (m html : String)
    (hm : m ∈ ElementPatchModes) (h : requiredMissing html = false) :
    patchElements html { mode := some m } =
      .ok (["event: datastar-patch-elements\n"] ++
        (if m = "outer" then [] else ["data: mode " ++ m ++ "\n"]) ++
        (splitLines html).map (fun line => "data: elements " ++ line ++ "\n") ++
        ["\n"]) ∧
    (("data: mode " ++ m ++ "\n") ∈
        (["event: datastar-patch-elements\n"] ++
          (if m = "outer" then [] else ["data: mode " ++ m ++ "\n"]) ++
          (splitLines html).map (fun line => "data: elements " ++ line ++ "\n") ++
          ["\n"]) ↔
      m ≠ "outer") := by
  have ht : truthy (some m) = true := by
    simp only [ElementPatchModes] at hm
    fin_cases hm <;> rfl
  have hc : ElementPatchModes.contains m = true := by
    simp [List.contains, List.elem_eq_mem, hm]
  have hsplit : splitLines m = [m] := splitLines_of_mode m hm
  have hdm : hasDefaultValue "mode" (OptionValue.str m) = (m == "outer") := by
    simp [hasDefaultValue, DefaultMapping, DefaultElementPatchMode]
  have hopt : eachOptionIsADataLine (renderOptionsList { mode := some m }) =
      if m = "outer" then [] else ["mode" ++ " " ++ m] := by
    by_cases houter : m = "outer"
    · subst houter
      rfl
    · have hbe : (m == "outer") = false := beq_eq_false_iff_ne.mpr houter
      rw [if_neg houter]
      simp [eachOptionIsADataLine, renderOptionsList, hdm, hbe,
        eachNewlineIsADataLine, hsplit, OptionValue.toString]
  constructor
  · simp only [patchElements, ht, hc, h, hopt, hm]
    simp only [show truthy (none : Option String) = false from rfl]
    simp only [send, eachNewlineIsADataLine, List.map_map]
    by_cases houter : m = "outer"
    · subst houter
      simp [Function.comp, String.append_assoc, hm]
      intro a _
      rw [show ("data: elements " : String) = "data: " ++ "elements " from rfl,
        String.append_assoc]
    · simp only [if_neg houter]
      simp [Function.comp, String.append_assoc, hm]
      constructor
      · rw [show ("data: mode " : String) = "data: " ++ "mode " from rfl,
          String.append_assoc]
      · intro a _
        rw [show ("data: elements " : String) = "data: " ++ "elements " from rfl,
          String.append_assoc]
  · constructor
    · intro hmem houter
      subst houter
      rw [if_pos rfl] at hmem
      rcases List.mem_append.mp hmem with h1 | h2
      · rcases List.mem_append.mp h1 with h3 | h4
        · rcases List.mem_append.mp h3 with h5 | h6
          · rw [List.mem_singleton] at h5
            exact string_ne_append_of_getElem "event: datastar-patch-elements\n"
              "data: mode " ("outer" ++ "\n") 0 (by decide) (by decide) (by decide)
              (by rw [← h5, String.append_assoc])
          · exact absurd h6 (List.not_mem_nil _)
        · obtain ⟨line, _, h5⟩ := List.mem_map.mp h4
          refine string_append_ne_of_getElem "data: mode " "data: elements "
            ("outer" ++ "\n") (line ++ "\n") 6 (by decide) (by decide) (by decide) ?_
          rw [← String.append_assoc, ← String.append_assoc]
          exact h5.symm
      · rw [List.mem_singleton, String.append_assoc] at h2
        exact string_ne_append_of_getElem "\n" "data: mode " ("outer" ++ "\n") 0
          (by decide) (by decide) (by decide) h2.symm
    · intro hne
      rw [if_neg hne]
      simp

/-- C7 witness: mode `"inner"` emits the `data: mode inner` line; mode
`"outer"` would not (it is the default). -/
theorem patchElements_mode_data_line_witness :
    patchElements "<div></div>" { mode := some "inner" } =
      .ok ["event: datastar-patch-elements\n", "data: mode inner\n",
        "data: elements <div></div>\n", "\n"] ∧
    ("data: mode inner\n" : String) ∈
      (["event: datastar-patch-elements\n", "data: mode inner\n",
        "data: elements <div></div>\n", "\n"] : List String) := by
  have h := patchElements_mode_data_line "inner" "<div></div>" (by decide) (by decide)
  exact ⟨h.1.trans (by rfl), by decide⟩

end Datastar
